import Mathlib

/-!
Verification of the wasm query-engine loader
(`libs/driver-adapters/executor/src/query-engine-wasm.ts`).

The loader is an async function over process-wide mutable state.  We embed it
as a small-step task machine: a task's program counter sits at one of the
`await` suspension points of the source (the dynamic `import` of the glue
module and the `fs.readFile` of the wasm payload); each `step` executes the
synchronous block of code between two suspension points.  Shared state holds
the `initializedModules` marker set, the glue modules' internal wasm binding
(mutated by `__wbg_set_wasm`), and a trace of observable effects (disk reads,
compilations, instantiations, export binding, start calls, marker updates).

The sequential entry point `getQueryEngineForProvider` runs a single task to
completion; the scheduler `run` interleaves several tasks under an explicit
schedule, which models the single-threaded cooperative concurrency of the
host runtime.

External collaborators (`normaliseProvider` from `./utils`, the glue modules,
the filesystem, and the wasm runtime's compile/instantiate/start outcomes)
are parameters of the environment `Env`.
-/

namespace QueryEngineWasm

/-- The fixed relative base path of the per-provider artifacts, from the
source constant `relativePath`. -/
def relativePath : String := "../../../../query-engine/query-engine-wasm/pkg"

/-- Path of the wasm payload for a normalised provider, from the source's
path.resolve of the dirname, relativePath, normalisedProvider and the file
name query_engine_bg.wasm. -/
def wasmPath (np : String) : String :=
  relativePath ++ "/" ++ np ++ "/query_engine_bg.wasm"

/-- Path of the glue module for a normalised provider, from the source's
dynamically constructed module specifier: relativePath, then the normalised
provider segment, then the file name query_engine_bg.js. -/
def gluePath (np : String) : String :=
  relativePath ++ "/" ++ np ++ "/query_engine_bg.js"

/-- A resolved glue module.  Its `QueryEngine` export is optional: the source
reads `engine.QueryEngine` without checking it exists, so a glue module may
lack it (the access then yields `undefined`).  The export identity is
abstracted as a `Nat`. -/
structure GlueModule where
  queryEngine : Option Nat
deriving DecidableEq, Repr

/-- Modelled from the spec: the error taxonomy of the loader (the source file
lets the underlying exceptions propagate; `normaliseProvider` and the error
classes live outside `src/`).  Per the spec: unsupported provider yields
`ConfigurationError`, a missing glue or binary file yields
`ArtifactNotFoundError` identifying the path, compile/instantiate failures
yield `ModuleLinkError`, and a failing start export yields
`ModuleInitError`. -/
inductive LoadError
  | configurationError (provider : String)
  | artifactNotFoundError (path : String)
  | moduleLinkError (np : String)
  | moduleInitError (np : String)
deriving DecidableEq, Repr

/-- Observable effects of the loader, recorded in order in the trace. -/
inductive Event
  | importGlue (np : String)
  | readFile (path : String)
  | compile (np : String)
  | instantiate (np : String)
  | bindExports (np : String)
  | start (np : String)
  | markInitialized (provider : String)
deriving DecidableEq, Repr

/-- The environment of external collaborators.
`normalise` is modelled from the spec (the function `normaliseProvider` is
brought in from `./utils`, which is outside the source fragment): a pure,
deterministic mapping that succeeds exactly on supported providers.
`glue np` is the result of dynamically importing the glue module of the
normalised provider `np` (`none` means the module cannot be resolved).
`disk` maps a path to the bytes stored there (abstracted as a `Nat` content
identifier).  `compileOk`, `instantiateOk` and `startOk` give the outcome of
`new WebAssembly.Module`, `new WebAssembly.Instance` and the
`__wbindgen_start` call on a payload with those bytes. -/
structure Env where
  normalise : String → Option String
  glue : String → Option GlueModule
  disk : String → Option Nat
  compileOk : Nat → Bool
  instantiateOk : Nat → Bool
  startOk : Nat → Bool

/-- Process-wide mutable state: the `initializedModules` marker set (keyed by
the RAW provider string, as in the source), the set of normalised providers
whose glue module has received a wasm export table via `__wbg_set_wasm`, and
the effect trace (newest event first). -/
structure Shared where
  initializedModules : List String
  glueBound : List String
  events : List Event
deriving DecidableEq, Repr

/-- The fresh process state: empty marker set, no glue bound, empty trace. -/
def Shared.fresh : Shared := ⟨[], [], []⟩

/-- Outcome of one loader call: either a `LoadError` or the glue module's
`QueryEngine` export (`none` models `undefined`). -/
abbrev Result := Except LoadError (Option Nat)

/-- A task of the loader, between suspension points:
`entry p` is a freshly invoked call `getQueryEngineForProvider(p)`;
`afterImport p np` is suspended at `await import(...)`;
`afterRead p np g` is suspended at `await fs.readFile(...)` with the resolved
glue module `g`; `done r` has returned or thrown. -/
inductive Task
  | entry (provider : String)
  | afterImport (provider np : String)
  | afterRead (provider np : String) (g : GlueModule)
  | done (r : Result)
deriving Repr

/-- One synchronous block of `getQueryEngineForProvider`, between suspension
points, translated from the source:

* from `entry`: `normaliseProvider(provider)` (fails with
  `ConfigurationError` on an unsupported identifier, before any I/O), then
  suspend on the dynamic import;
* from `afterImport`: the import resolves (or fails with a missing glue
  artifact); then the `initializedModules.has(provider)` check on the RAW
  provider: if present, return `engine.QueryEngine` at once, otherwise
  suspend on `fs.readFile`;
* from `afterRead`: the read resolves (missing file fails with
  `ArtifactNotFoundError`), then synchronously `new WebAssembly.Module`,
  `new WebAssembly.Instance` with the glue module as import namespace,
  `engine.__wbg_set_wasm(instance.exports)`, `wbindgen_start()`, and only
  after all have succeeded `initializedModules.add(provider)` and the return
  of `engine.QueryEngine`. -/
def step (env : Env) (σ : Shared) (t : Task) : Shared × Task :=
  match t with
  | .entry p =>
    match env.normalise p with
    | none => (σ, .done (.error (.configurationError p)))
    | some np => (σ, .afterImport p np)
  | .afterImport p np =>
    match env.glue np with
    | none =>
      ({ σ with events := .importGlue np :: σ.events },
       .done (.error (.artifactNotFoundError (gluePath np))))
    | some g =>
      if p ∈ σ.initializedModules then
        ({ σ with events := .importGlue np :: σ.events },
         .done (.ok g.queryEngine))
      else
        ({ σ with events := .importGlue np :: σ.events },
         .afterRead p np g)
  | .afterRead p np g =>
    match env.disk (wasmPath np) with
    | none =>
      ({ σ with events := .readFile (wasmPath np) :: σ.events },
       .done (.error (.artifactNotFoundError (wasmPath np))))
    | some bytes =>
      if env.compileOk bytes then
        if env.instantiateOk bytes then
          if env.startOk bytes then
            ({ σ with
                events := .markInitialized p :: .start np :: .bindExports np
                  :: .instantiate np :: .compile np
                  :: .readFile (wasmPath np) :: σ.events,
                glueBound := np :: σ.glueBound,
                initializedModules := p :: σ.initializedModules },
             .done (.ok g.queryEngine))
          else
            ({ σ with
                events := .start np :: .bindExports np :: .instantiate np
                  :: .compile np :: .readFile (wasmPath np) :: σ.events,
                glueBound := np :: σ.glueBound },
             .done (.error (.moduleInitError np)))
        else
          ({ σ with
              events := .instantiate np :: .compile np
                :: .readFile (wasmPath np) :: σ.events },
           .done (.error (.moduleLinkError np)))
      else
        ({ σ with
            events := .compile np :: .readFile (wasmPath np) :: σ.events },
         .done (.error (.moduleLinkError np)))
  | .done r => (σ, .done r)

/-- One sequential call `getQueryEngineForProvider(p)`: run the single task
from `entry p` to completion (a call crosses at most two suspension points,
so three synchronous blocks suffice). -/
def getQueryEngineForProvider (env : Env) (σ : Shared) (p : String) :
    Shared × Task :=
  let s1 := step env σ (.entry p)
  let s2 := step env s1.1 s1.2
  step env s2.1 s2.2

/-- Resume the task at index `i` of the task list for one synchronous
block. -/
def stepAt (env : Env) (σ : Shared) (ts : List Task) (i : Nat) :
    Shared × List Task :=
  match ts[i]? with
  | none => (σ, ts)
  | some t =>
    let s := step env σ t
    (s.1, ts.set i s.2)

/-- Cooperative scheduler: resume tasks in the order given by the schedule,
one synchronous block at a time.  This models the host's single-threaded
event loop interleaving concurrent logical requests at their `await`
suspension points. -/
def run (env : Env) (σ : Shared) (ts : List Task) :
    List Nat → Shared × List Task
  | [] => (σ, ts)
  | i :: rest =>
    let s := stepAt env σ ts i
    run env s.1 s.2 rest

/-- Number of occurrences of an event in a trace. -/
def countEvent (e : Event) : List Event → Nat
  | [] => 0
  | x :: xs => (if x = e then 1 else 0) + countEvent e xs

/-- A concrete environment for the supported provider `"postgresql"`
(normalised to itself, per the spec's concrete scenario), with its glue
module and wasm payload present and a payload that compiles, instantiates
and starts successfully. -/
def pgEnv : Env where
  normalise := fun p => if p = "postgresql" then some "postgresql" else none
  glue := fun np => if np = "postgresql" then some ⟨some 0⟩ else none
  disk := fun pa => if pa = wasmPath "postgresql" then some 7 else none
  compileOk := fun _ => true
  instantiateOk := fun _ => true
  startOk := fun _ => true

/-- Like `pgEnv`, but the payload's start export (`__wbindgen_start`)
throws. -/
def startFailEnv : Env := { pgEnv with startOk := fun _ => false }

/-- Like `pgEnv`, but the wasm payload is absent from disk. -/
def missingWasmEnv : Env := { pgEnv with disk := fun _ => none }

/-- Like `pgEnv`, but the glue module resolves successfully while lacking a
`QueryEngine` export. -/
def noExportEnv : Env :=
  { pgEnv with
      glue := fun np => if np = "postgresql" then some ⟨none⟩ else none }

/-- An environment in which the two distinct raw identifiers `"postgres"`
and `"postgresql"` both normalise to the same canonical directory segment
`"postgresql"`. -/
def aliasEnv : Env :=
  { pgEnv with
      normalise := fun p =>
        if p = "postgres" ∨ p = "postgresql" then some "postgresql"
        else none }

/-- C4: for every unsupported/unrecognized provider identifier (one the
normalisation step rejects), `getQueryEngineForProvider` fails with a
`ConfigurationError` and the shared state is unchanged: no filesystem read
and no module load occurs (the trace gains no event at all). -/
theorem unsupported_provider_configuration_error_no_io
    (env : Env) (σ : Shared) (p : String)
    (hn : env.normalise p = none) :
    (getQueryEngineForProvider env σ p).2
        = Task.done (Except.error (LoadError.configurationError p)) ∧
    (getQueryEngineForProvider env σ p).1 = σ := by
  simp [getQueryEngineForProvider, step, hn]

/-- Witness for C4: requesting the unsupported provider `"oracle"` in the
concrete environment fails with `ConfigurationError` and leaves the fresh
state untouched. -/
theorem unsupported_provider_configuration_error_no_io_witness :
    (getQueryEngineForProvider pgEnv Shared.fresh "oracle").2
        = Task.done (Except.error (LoadError.configurationError "oracle")) ∧
    (getQueryEngineForProvider pgEnv Shared.fresh "oracle").1 = Shared.fresh :=
  unsupported_provider_configuration_error_no_io pgEnv Shared.fresh "oracle"
    (by decide)

/-- C6: on the first initialization of a provider (not yet in the marker
set), the loader performs exactly, and in this order (the trace is stored
newest-first): import of the glue module, read of the payload bytes, compile
of the payload into a module, instantiation with the glue module as import
namespace, handing the instance's export table to the glue module via
`__wbg_set_wasm`, a single invocation of the start export, and only after
that the recording of the provider in the marker set; the call then returns
the glue module's `QueryEngine` export. -/
theorem first_init_event_sequence (env : Env) (σ : Shared) (p np : String)
    (g : GlueModule) (b : Nat)
    (hm : p ∉ σ.initializedModules)
    (hn : env.normalise p = some np) (hg : env.glue np = some g)
    (hd : env.disk (wasmPath np) = some b)
    (hc : env.compileOk b = true) (hi : env.instantiateOk b = true)
    (hs : env.startOk b = true) :
    (getQueryEngineForProvider env σ p).1.events
      = Event.markInitialized p :: Event.start np :: Event.bindExports np
          :: Event.instantiate np :: Event.compile np
          :: Event.readFile (wasmPath np) :: Event.importGlue np :: σ.events ∧
    (getQueryEngineForProvider env σ p).1.initializedModules
      = p :: σ.initializedModules ∧
    (getQueryEngineForProvider env σ p).2
      = Task.done (Except.ok g.queryEngine) := by
  simp [getQueryEngineForProvider, step, hn, hg, hd, hc, hi, hs, hm]

/-- Witness for C6: the first call for `"postgresql"` in the concrete
environment produces exactly the compile, instantiate, bind, start, mark
sequence and returns the engine handle. -/
theorem first_init_event_sequence_witness :
    (getQueryEngineForProvider pgEnv Shared.fresh "postgresql").1.events
      = Event.markInitialized "postgresql" :: Event.start "postgresql"
          :: Event.bindExports "postgresql" :: Event.instantiate "postgresql"
          :: Event.compile "postgresql"
          :: Event.readFile (wasmPath "postgresql")
          :: Event.importGlue "postgresql" :: Shared.fresh.events ∧
    (getQueryEngineForProvider pgEnv Shared.fresh "postgresql").1.initializedModules
      = "postgresql" :: Shared.fresh.initializedModules ∧
    (getQueryEngineForProvider pgEnv Shared.fresh "postgresql").2
      = Task.done (Except.ok (GlueModule.mk (some 0)).queryEngine) :=
  first_init_event_sequence pgEnv Shared.fresh "postgresql" "postgresql"
    (GlueModule.mk (some 0)) 7 (by decide) (by decide) (by decide) (by decide)
    (by decide) (by decide) (by decide)

/-- C1: for a supported provider `p` (normalisation succeeds, glue module
and payload are present, and the payload compiles, instantiates and starts),
two sequential calls to `getQueryEngineForProvider p` starting from the
fresh process state both return the identical handle reference (the glue
module's `QueryEngine` export), and across the whole process history the
wasm file is read exactly once and the compile, instantiate, bind and start
steps each execute exactly once. -/
theorem getQueryEngine_idempotent_cached (env : Env) (p np : String)
    (g : GlueModule) (b : Nat)
    (hn : env.normalise p = some np) (hg : env.glue np = some g)
    (hd : env.disk (wasmPath np) = some b)
    (hc : env.compileOk b = true) (hi : env.instantiateOk b = true)
    (hs : env.startOk b = true) :
    (getQueryEngineForProvider env Shared.fresh p).2
        = Task.done (Except.ok g.queryEngine) ∧
    (getQueryEngineForProvider env
        (getQueryEngineForProvider env Shared.fresh p).1 p).2
        = Task.done (Except.ok g.queryEngine) ∧
    countEvent (Event.readFile (wasmPath np))
      (getQueryEngineForProvider env
        (getQueryEngineForProvider env Shared.fresh p).1 p).1.events = 1 ∧
    countEvent (Event.compile np)
      (getQueryEngineForProvider env
        (getQueryEngineForProvider env Shared.fresh p).1 p).1.events = 1 ∧
    countEvent (Event.instantiate np)
      (getQueryEngineForProvider env
        (getQueryEngineForProvider env Shared.fresh p).1 p).1.events = 1 ∧
    countEvent (Event.bindExports np)
      (getQueryEngineForProvider env
        (getQueryEngineForProvider env Shared.fresh p).1 p).1.events = 1 ∧
    countEvent (Event.start np)
      (getQueryEngineForProvider env
        (getQueryEngineForProvider env Shared.fresh p).1 p).1.events = 1 := by
  simp [getQueryEngineForProvider, step, hn, hg, hd, hc, hi, hs, Shared.fresh,
    countEvent]

/-- Witness for C1: two sequential calls for `"postgresql"` in the concrete
environment both return the handle `some 0` and each initialization step
ran exactly once. -/
theorem getQueryEngine_idempotent_cached_witness :
    (getQueryEngineForProvider pgEnv Shared.fresh "postgresql").2
        = Task.done (Except.ok (GlueModule.mk (some 0)).queryEngine) ∧
    (getQueryEngineForProvider pgEnv
        (getQueryEngineForProvider pgEnv Shared.fresh "postgresql").1
        "postgresql").2
        = Task.done (Except.ok (GlueModule.mk (some 0)).queryEngine) ∧
    countEvent (Event.readFile (wasmPath "postgresql"))
      (getQueryEngineForProvider pgEnv
        (getQueryEngineForProvider pgEnv Shared.fresh "postgresql").1
        "postgresql").1.events = 1 ∧
    countEvent (Event.compile "postgresql")
      (getQueryEngineForProvider pgEnv
        (getQueryEngineForProvider pgEnv Shared.fresh "postgresql").1
        "postgresql").1.events = 1 ∧
    countEvent (Event.instantiate "postgresql")
      (getQueryEngineForProvider pgEnv
        (getQueryEngineForProvider pgEnv Shared.fresh "postgresql").1
        "postgresql").1.events = 1 ∧
    countEvent (Event.bindExports "postgresql")
      (getQueryEngineForProvider pgEnv
        (getQueryEngineForProvider pgEnv Shared.fresh "postgresql").1
        "postgresql").1.events = 1 ∧
    countEvent (Event.start "postgresql")
      (getQueryEngineForProvider pgEnv
        (getQueryEngineForProvider pgEnv Shared.fresh "postgresql").1
        "postgresql").1.events = 1 :=
  getQueryEngine_idempotent_cached pgEnv "postgresql" "postgresql"
    (GlueModule.mk (some 0)) 7 (by decide) (by decide) (by decide) (by decide)
    (by decide) (by decide)

/-- C7: the marker set only grows.  For every environment, state and
provider, every identifier in the marker set before the call is still there
after it (no operation of the loader deletes entries), and any identifier
present afterwards was either already there or is the requested provider,
added by a call that succeeded (returned the engine handle), which in this
semantics happens only after instantiation and startup both succeeded. -/
theorem initializedModules_monotone (env : Env) (σ : Shared) (p : String) :
    (∀ q, q ∈ σ.initializedModules →
        q ∈ (getQueryEngineForProvider env σ p).1.initializedModules) ∧
    (∀ q, q ∈ (getQueryEngineForProvider env σ p).1.initializedModules →
        q ∈ σ.initializedModules ∨
          (q = p ∧ ∃ h, (getQueryEngineForProvider env σ p).2
              = Task.done (Except.ok h))) := by
  rcases hn : env.normalise p with _ | np
  · exact ⟨fun q hq => by
        simpa [getQueryEngineForProvider, step, hn] using hq,
      fun q hq => Or.inl (by
        simpa [getQueryEngineForProvider, step, hn] using hq)⟩
  · rcases hg : env.glue np with _ | g
    · exact ⟨fun q hq => by
          simpa [getQueryEngineForProvider, step, hn, hg] using hq,
        fun q hq => Or.inl (by
          simpa [getQueryEngineForProvider, step, hn, hg] using hq)⟩
    · by_cases hm : p ∈ σ.initializedModules
      · exact ⟨fun q hq => by
            simpa [getQueryEngineForProvider, step, hn, hg, hm] using hq,
          fun q hq => Or.inl (by
            simpa [getQueryEngineForProvider, step, hn, hg, hm] using hq)⟩
      · rcases hd : env.disk (wasmPath np) with _ | b
        · exact ⟨fun q hq => by
              simpa [getQueryEngineForProvider, step, hn, hg, hm, hd] using hq,
            fun q hq => Or.inl (by
              simpa [getQueryEngineForProvider, step, hn, hg, hm, hd] using hq)⟩
        · rcases hc : env.compileOk b with _ | _
          · exact ⟨fun q hq => by
                simpa [getQueryEngineForProvider, step, hn, hg, hm, hd, hc]
                  using hq,
              fun q hq => Or.inl (by
                simpa [getQueryEngineForProvider, step, hn, hg, hm, hd, hc]
                  using hq)⟩
          · rcases hi : env.instantiateOk b with _ | _
            · exact ⟨fun q hq => by
                  simpa [getQueryEngineForProvider, step, hn, hg, hm, hd, hc,
                    hi] using hq,
                fun q hq => Or.inl (by
                  simpa [getQueryEngineForProvider, step, hn, hg, hm, hd, hc,
                    hi] using hq)⟩
            · rcases hs : env.startOk b with _ | _
              · exact ⟨fun q hq => by
                    simpa [getQueryEngineForProvider, step, hn, hg, hm, hd,
                      hc, hi, hs] using hq,
                  fun q hq => Or.inl (by
                    simpa [getQueryEngineForProvider, step, hn, hg, hm, hd,
                      hc, hi, hs] using hq)⟩
              · constructor
                · intro q hq
                  simp [getQueryEngineForProvider, step, hn, hg, hm, hd, hc,
                    hi, hs, hq]
                · intro q hq
                  simp [getQueryEngineForProvider, step, hn, hg, hm, hd, hc,
                    hi, hs] at hq
                  rcases hq with h | h
                  · refine Or.inr ⟨h, g.queryEngine, ?_⟩
                    simp [getQueryEngineForProvider, step, hn, hg, hm, hd,
                      hc, hi, hs]
                  · exact Or.inl h

/-- C2: the provider is marked initialized only after both instantiation and
the start export have succeeded.  If the start export (`__wbindgen_start`)
throws, the call fails with `ModuleInitError` and the provider is NOT added
to the marker set; a later call, in an environment whose payload works,
re-attempts initialization, succeeds, and only then marks the provider. -/
theorem start_failure_not_marked_retry
    (env env2 : Env) (σ : Shared) (p np : String) (g g2 : GlueModule)
    (b b2 : Nat)
    (hm : p ∉ σ.initializedModules)
    (hn : env.normalise p = some np) (hg : env.glue np = some g)
    (hd : env.disk (wasmPath np) = some b)
    (hc : env.compileOk b = true) (hi : env.instantiateOk b = true)
    (hs : env.startOk b = false)
    (hn2 : env2.normalise p = some np) (hg2 : env2.glue np = some g2)
    (hd2 : env2.disk (wasmPath np) = some b2)
    (hc2 : env2.compileOk b2 = true) (hi2 : env2.instantiateOk b2 = true)
    (hs2 : env2.startOk b2 = true) :
    (getQueryEngineForProvider env σ p).2
        = Task.done (Except.error (LoadError.moduleInitError np)) ∧
    p ∉ (getQueryEngineForProvider env σ p).1.initializedModules ∧
    (getQueryEngineForProvider env2
        (getQueryEngineForProvider env σ p).1 p).2
        = Task.done (Except.ok g2.queryEngine) ∧
    p ∈ (getQueryEngineForProvider env2
        (getQueryEngineForProvider env σ p).1 p).1.initializedModules := by
  simp [getQueryEngineForProvider, step, hn, hg, hd, hc, hi, hs, hm,
    hn2, hg2, hd2, hc2, hi2, hs2]

/-- Witness for C2: in the concrete environment whose start export throws,
the call for `"postgresql"` fails with `ModuleInitError` without marking the
provider, and a retry in the working environment succeeds and marks it. -/
theorem start_failure_not_marked_retry_witness :
    (getQueryEngineForProvider startFailEnv Shared.fresh "postgresql").2
        = Task.done (Except.error (LoadError.moduleInitError "postgresql")) ∧
    "postgresql" ∉ (getQueryEngineForProvider startFailEnv Shared.fresh
        "postgresql").1.initializedModules ∧
    (getQueryEngineForProvider pgEnv
        (getQueryEngineForProvider startFailEnv Shared.fresh "postgresql").1
        "postgresql").2
        = Task.done (Except.ok (GlueModule.mk (some 0)).queryEngine) ∧
    "postgresql" ∈ (getQueryEngineForProvider pgEnv
        (getQueryEngineForProvider startFailEnv Shared.fresh "postgresql").1
        "postgresql").1.initializedModules :=
  start_failure_not_marked_retry startFailEnv pgEnv Shared.fresh "postgresql"
    "postgresql" (GlueModule.mk (some 0)) (GlueModule.mk (some 0)) 7 7
    (by decide) (by decide) (by decide) (by decide) (by decide) (by decide)
    (by decide) (by decide) (by decide) (by decide) (by decide) (by decide)
    (by decide)

/-- C5: for a supported, not-yet-initialized provider whose wasm payload is
absent on disk, the call fails with an `ArtifactNotFoundError` identifying
the expected path, the provider is not added to the marker set, and a
subsequent call in an environment where the artifact is present succeeds
and marks the provider. -/
theorem artifact_missing_not_marked_retry
    (env env2 : Env) (σ : Shared) (p np : String) (g g2 : GlueModule)
    (b2 : Nat)
    (hm : p ∉ σ.initializedModules)
    (hn : env.normalise p = some np) (hg : env.glue np = some g)
    (hd : env.disk (wasmPath np) = none)
    (hn2 : env2.normalise p = some np) (hg2 : env2.glue np = some g2)
    (hd2 : env2.disk (wasmPath np) = some b2)
    (hc2 : env2.compileOk b2 = true) (hi2 : env2.instantiateOk b2 = true)
    (hs2 : env2.startOk b2 = true) :
    (getQueryEngineForProvider env σ p).2
        = Task.done (Except.error
            (LoadError.artifactNotFoundError (wasmPath np))) ∧
    p ∉ (getQueryEngineForProvider env σ p).1.initializedModules ∧
    (getQueryEngineForProvider env2
        (getQueryEngineForProvider env σ p).1 p).2
        = Task.done (Except.ok g2.queryEngine) ∧
    p ∈ (getQueryEngineForProvider env2
        (getQueryEngineForProvider env σ p).1 p).1.initializedModules := by
  simp [getQueryEngineForProvider, step, hn, hg, hd, hm,
    hn2, hg2, hd2, hc2, hi2, hs2]

/-- Witness for C5: with the wasm payload missing, the `"postgresql"` call
fails with `ArtifactNotFoundError` naming the expected path and does not
mark the provider; the retry with the artifact present succeeds. -/
theorem artifact_missing_not_marked_retry_witness :
    (getQueryEngineForProvider missingWasmEnv Shared.fresh "postgresql").2
        = Task.done (Except.error
            (LoadError.artifactNotFoundError (wasmPath "postgresql"))) ∧
    "postgresql" ∉ (getQueryEngineForProvider missingWasmEnv Shared.fresh
        "postgresql").1.initializedModules ∧
    (getQueryEngineForProvider pgEnv
        (getQueryEngineForProvider missingWasmEnv Shared.fresh
          "postgresql").1 "postgresql").2
        = Task.done (Except.ok (GlueModule.mk (some 0)).queryEngine) ∧
    "postgresql" ∈ (getQueryEngineForProvider pgEnv
        (getQueryEngineForProvider missingWasmEnv Shared.fresh
          "postgresql").1 "postgresql").1.initializedModules :=
  artifact_missing_not_marked_retry missingWasmEnv pgEnv Shared.fresh
    "postgresql" "postgresql" (GlueModule.mk (some 0)) (GlueModule.mk (some 0))
    7 (by decide) (by decide) (by decide) (by decide) (by decide) (by decide)
    (by decide) (by decide) (by decide) (by decide)

/-- C9: a start-export failure is not atomic with respect to glue-module
state.  If `__wbindgen_start` throws, the marker set is unchanged (the
retry remains possible) and no handle is returned, but the glue module has
already received the instance's export table via `__wbg_set_wasm`: the
normalised provider is in `glueBound`, and the trace (newest first) shows
the `bindExports` event before the failing `start` event. -/
theorem start_failure_glue_already_bound
    (env : Env) (σ : Shared) (p np : String) (g : GlueModule) (b : Nat)
    (hm : p ∉ σ.initializedModules)
    (hn : env.normalise p = some np) (hg : env.glue np = some g)
    (hd : env.disk (wasmPath np) = some b)
    (hc : env.compileOk b = true) (hi : env.instantiateOk b = true)
    (hs : env.startOk b = false) :
    (getQueryEngineForProvider env σ p).2
        = Task.done (Except.error (LoadError.moduleInitError np)) ∧
    np ∈ (getQueryEngineForProvider env σ p).1.glueBound ∧
    p ∉ (getQueryEngineForProvider env σ p).1.initializedModules ∧
    (getQueryEngineForProvider env σ p).1.events
      = Event.start np :: Event.bindExports np :: Event.instantiate np
          :: Event.compile np :: Event.readFile (wasmPath np)
          :: Event.importGlue np :: σ.events := by
  simp [getQueryEngineForProvider, step, hn, hg, hd, hc, hi, hs, hm]

/-- Witness for C9: in the environment whose start export throws, the
`"postgresql"` call fails with `ModuleInitError`, yet the glue module's
wasm binding has already been mutated. -/
theorem start_failure_glue_already_bound_witness :
    (getQueryEngineForProvider startFailEnv Shared.fresh "postgresql").2
        = Task.done (Except.error (LoadError.moduleInitError "postgresql")) ∧
    "postgresql" ∈ (getQueryEngineForProvider startFailEnv Shared.fresh
        "postgresql").1.glueBound ∧
    "postgresql" ∉ (getQueryEngineForProvider startFailEnv Shared.fresh
        "postgresql").1.initializedModules ∧
    (getQueryEngineForProvider startFailEnv Shared.fresh "postgresql").1.events
      = Event.start "postgresql" :: Event.bindExports "postgresql"
          :: Event.instantiate "postgresql" :: Event.compile "postgresql"
          :: Event.readFile (wasmPath "postgresql")
          :: Event.importGlue "postgresql" :: Shared.fresh.events :=
  start_failure_glue_already_bound startFailEnv Shared.fresh "postgresql"
    "postgresql" (GlueModule.mk (some 0)) 7 (by decide) (by decide)
    (by decide) (by decide) (by decide) (by decide) (by decide)

/-- C10: the loader returns the glue module's `QueryEngine` export without
validating that it exists: for a glue module that resolves successfully but
lacks a `QueryEngine` export, the call succeeds and returns `undefined`
(modelled as `Except.ok none`) instead of failing with any error. -/
theorem missing_queryEngine_export_returns_undefined
    (env : Env) (σ : Shared) (p np : String) (b : Nat)
    (hm : p ∉ σ.initializedModules)
    (hn : env.normalise p = some np)
    (hg : env.glue np = some (GlueModule.mk none))
    (hd : env.disk (wasmPath np) = some b)
    (hc : env.compileOk b = true) (hi : env.instantiateOk b = true)
    (hs : env.startOk b = true) :
    (getQueryEngineForProvider env σ p).2
        = Task.done (Except.ok none) := by
  simp [getQueryEngineForProvider, step, hn, hg, hd, hc, hi, hs, hm]

/-- Witness for C10: in the environment whose glue module lacks a
`QueryEngine` export, the `"postgresql"` call completes without an error
and yields `undefined`. -/
theorem missing_queryEngine_export_returns_undefined_witness :
    (getQueryEngineForProvider noExportEnv Shared.fresh "postgresql").2
        = Task.done (Except.ok none) :=
  missing_queryEngine_export_returns_undefined noExportEnv Shared.fresh
    "postgresql" "postgresql" 7 (by decide) (by decide) (by decide)
    (by decide) (by decide) (by decide) (by decide)

/-- C8: the initialization guard is keyed by the raw provider string while
artifact paths use the normalised provider.  For any two distinct raw
identifiers that normalise to the same canonical directory segment,
requesting each once runs the compile/instantiate/start sequence once per
raw string — twice in total — against the same on-disk module (one
`readFile` of the same path per call), rather than at most once per
canonical provider. -/
theorem raw_alias_double_initialization
    (env : Env) (p1 p2 np : String) (g : GlueModule) (b : Nat)
    (hne : p1 ≠ p2)
    (hn1 : env.normalise p1 = some np) (hn2 : env.normalise p2 = some np)
    (hg : env.glue np = some g) (hd : env.disk (wasmPath np) = some b)
    (hc : env.compileOk b = true) (hi : env.instantiateOk b = true)
    (hs : env.startOk b = true) :
    (getQueryEngineForProvider env Shared.fresh p1).2
        = Task.done (Except.ok g.queryEngine) ∧
    (getQueryEngineForProvider env
        (getQueryEngineForProvider env Shared.fresh p1).1 p2).2
        = Task.done (Except.ok g.queryEngine) ∧
    countEvent (Event.compile np)
      (getQueryEngineForProvider env
        (getQueryEngineForProvider env Shared.fresh p1).1 p2).1.events = 2 ∧
    countEvent (Event.start np)
      (getQueryEngineForProvider env
        (getQueryEngineForProvider env Shared.fresh p1).1 p2).1.events = 2 ∧
    countEvent (Event.readFile (wasmPath np))
      (getQueryEngineForProvider env
        (getQueryEngineForProvider env Shared.fresh p1).1 p2).1.events = 2 := by
  simp [getQueryEngineForProvider, step, hn1, hn2, hg, hd, hc, hi, hs,
    Shared.fresh, countEvent, hne.symm]

/-- Witness for C8: in the aliasing environment, the raw identifiers
`"postgres"` and `"postgresql"` both normalise to `"postgresql"`, and
requesting each once compiles, starts, and reads the same wasm file twice
in total. -/
theorem raw_alias_double_initialization_witness :
    (getQueryEngineForProvider aliasEnv Shared.fresh "postgres").2
        = Task.done (Except.ok (GlueModule.mk (some 0)).queryEngine) ∧
    (getQueryEngineForProvider aliasEnv
        (getQueryEngineForProvider aliasEnv Shared.fresh "postgres").1
        "postgresql").2
        = Task.done (Except.ok (GlueModule.mk (some 0)).queryEngine) ∧
    countEvent (Event.compile "postgresql")
      (getQueryEngineForProvider aliasEnv
        (getQueryEngineForProvider aliasEnv Shared.fresh "postgres").1
        "postgresql").1.events = 2 ∧
    countEvent (Event.start "postgresql")
      (getQueryEngineForProvider aliasEnv
        (getQueryEngineForProvider aliasEnv Shared.fresh "postgres").1
        "postgresql").1.events = 2 ∧
    countEvent (Event.readFile (wasmPath "postgresql"))
      (getQueryEngineForProvider aliasEnv
        (getQueryEngineForProvider aliasEnv Shared.fresh "postgres").1
        "postgresql").1.events = 2 :=
  raw_alias_double_initialization aliasEnv "postgres" "postgresql"
    "postgresql" (GlueModule.mk (some 0)) 7 (by decide) (by decide)
    (by decide) (by decide) (by decide) (by decide) (by decide) (by decide)

/-- C3 counterexample: two concurrent requests for the never-yet-initialized
provider `"postgresql"`, interleaved at the `await` suspension points
(import, then file read) so that each checks the marker set before either
completes, do NOT perform the compile step at most once: the interleaved
run compiles twice, refuting "at most one performs the
compile/instantiate/start sequence". -/
theorem concurrent_double_compile_cex :
    ¬ countEvent (Event.compile "postgresql")
        (run pgEnv Shared.fresh
          [Task.entry "postgresql", Task.entry "postgresql"]
          [0, 1, 0, 1, 0, 1]).1.events ≤ 1 := by
  decide

/-- C3 amended: the loader does not enforce at-most-one concurrent
initialization per provider.  If two requests for the same
never-yet-initialized provider interleave at the suspension points so that
the second checks the marker set before the first has completed, BOTH
perform the compile/instantiate/start sequence (two compile and two start
steps in total, against the same on-disk module); both requests still
complete successfully and observe the same handle reference. -/
theorem concurrent_requests_both_initialize
    (env : Env) (p np : String) (g : GlueModule) (b : Nat)
    (hn : env.normalise p = some np) (hg : env.glue np = some g)
    (hd : env.disk (wasmPath np) = some b)
    (hc : env.compileOk b = true) (hi : env.instantiateOk b = true)
    (hs : env.startOk b = true) :
    countEvent (Event.compile np)
      (run env Shared.fresh [Task.entry p, Task.entry p]
        [0, 1, 0, 1, 0, 1]).1.events = 2 ∧
    countEvent (Event.start np)
      (run env Shared.fresh [Task.entry p, Task.entry p]
        [0, 1, 0, 1, 0, 1]).1.events = 2 ∧
    (run env Shared.fresh [Task.entry p, Task.entry p]
        [0, 1, 0, 1, 0, 1]).2
      = [Task.done (Except.ok g.queryEngine),
         Task.done (Except.ok g.queryEngine)] := by
  simp [run, stepAt, step, hn, hg, hd, hc, hi, hs, Shared.fresh, countEvent]

/-- Witness for the amended C3: in the concrete environment, the fully
interleaved pair of `"postgresql"` requests compiles and starts twice and
both requests return the same handle. -/
theorem concurrent_requests_both_initialize_witness :
    countEvent (Event.compile "postgresql")
      (run pgEnv Shared.fresh
        [Task.entry "postgresql", Task.entry "postgresql"]
        [0, 1, 0, 1, 0, 1]).1.events = 2 ∧
    countEvent (Event.start "postgresql")
      (run pgEnv Shared.fresh
        [Task.entry "postgresql", Task.entry "postgresql"]
        [0, 1, 0, 1, 0, 1]).1.events = 2 ∧
    (run pgEnv Shared.fresh
        [Task.entry "postgresql", Task.entry "postgresql"]
        [0, 1, 0, 1, 0, 1]).2
      = [Task.done (Except.ok (GlueModule.mk (some 0)).queryEngine),
         Task.done (Except.ok (GlueModule.mk (some 0)).queryEngine)] :=
  concurrent_requests_both_initialize pgEnv "postgresql" "postgresql"
    (GlueModule.mk (some 0)) 7 (by decide) (by decide) (by decide)
    (by decide) (by decide) (by decide)

end QueryEngineWasm
